import Mathlib

/-!
# Model fallback and discovery retry of the chat client (`script.js`)

A shallow embedding of `listAvailableModels` and `sendMessage`.

* The network is an explicit environment: `Env.fetch n req` is what the
  `n`-th `fetch` call of a run (counting from zero) yields for request `req`,
  so a server may answer the same request differently at different times.
* A body that parses is JSON `null` or the record of the properties the script
  reads from it (`error`, `candidates`, `models`).  A property may be absent
  (the script treats a `null` property like an absent one); an entry of
  `models` may be `null` or lack a string `name`; an empty `candidates` or
  `parts` list also stands for one whose first entry is `null`.  Everything
  else that is present has the type the API documents.
* A run of `sendMessage` is the list of `showMessage` / `showError` calls it
  makes together with the list of requests it issues, in order.  The remaining
  DOM housekeeping (loading bubble, button state, focus) is not modelled.
-/

namespace Chatbot

/-! ## Data model -/

/-- One element of `content.parts`; `text` is `none` when the property is absent. -/
structure Part where
  text : Option String
deriving DecidableEq, Repr

/-- The `content` object of a candidate; `parts` is `none` when absent. -/
structure Content where
  parts : Option (List Part)
deriving DecidableEq, Repr

/-- One element of `data.candidates`; `content` is `none` when absent. -/
structure Candidate where
  content : Option Content
deriving DecidableEq, Repr

/-- The `error` object of an error body; `message` is `none` when absent. -/
structure ErrorInfo where
  message : Option String
deriving DecidableEq, Repr

/-- A model object of `data.models` that has a string `name`. -/
structure ModelInfo where
  name : String
  supportedGenerationMethods : Option (List String)
deriving DecidableEq, Repr

/-- One element of `data.models`: `null`, an object without a string `name`,
or a model. -/
inductive ModelEntry where
  | null
  | nameless (supportedGenerationMethods : Option (List String))
  | model (info : ModelInfo)
deriving DecidableEq, Repr

/-- The parsed JSON body, as far as the script reads it. -/
structure Body where
  error : Option ErrorInfo
  candidates : Option (List Candidate)
  models : Option (List ModelEntry)
deriving DecidableEq, Repr

/-- Outcome of `await response.json()`: the promise rejects with an exception
carrying `message`, or resolves to JSON `null`, or resolves to a body whose
properties can be read. -/
inductive JsonResult where
  | rejected (message : String)
  | null
  | parsed (data : Body)
deriving DecidableEq, Repr

/-- A `Response` object: its HTTP status and what `json()` gives. -/
structure Response where
  status : Nat
  json : JsonResult
deriving DecidableEq, Repr

/-- The `response.ok` flag: the status is in the range 200-299. -/
def Response.ok (r : Response) : Bool :=
  decide (200 ≤ r.status) && decide (r.status ≤ 299)

/-- Outcome of `await fetch(...)`: the promise rejects with an exception
carrying `message`, or resolves to a response. -/
inductive FetchResult where
  | rejected (message : String)
  | resolved (response : Response)
deriving DecidableEq, Repr

/-- The two requests the script issues.
`generateContent version model key message` is the
`POST /{version}/models/{model}:generateContent?key={key}` call whose JSON body
carries `message`; `listModels version key` is `GET /{version}/models?key={key}`. -/
inductive Request where
  | generateContent (version model key message : String)
  | listModels (version key : String)
deriving DecidableEq, Repr

/-- The environment of a run: the network, and the message text the JavaScript
engine gives the `TypeError` raised when property `p` of `undefined` or `null`
is read. -/
structure Env where
  fetch : Nat → Request → FetchResult
  typeErrorMessage : String → String

/-- An `Error` object, as far as the script reads it. -/
structure JsError where
  message : String
deriving DecidableEq, Repr

/-- The calls of `showMessage(text, sender)` and `showError(errorText)`.
The text of `showMessage` is `none` when the argument is `undefined` (or
`null`). -/
inductive UiEvent where
  | showMessage (text : Option String) (sender : String)
  | showError (errorText : String)
deriving DecidableEq, Repr

/-- What a run has done so far: the UI calls and the requests issued, oldest first. -/
structure Run where
  ui : List UiEvent
  calls : List Request
deriving DecidableEq, Repr

/-- An entry of `modelConfigs`. -/
structure ModelConfig where
  version : String
  model : String
deriving DecidableEq, Repr

/-! ## `listAvailableModels` -/

/-- The version list `['v1beta', 'v1']` of both version loops. -/
def apiVersions : List String := ["v1beta", "v1"]

/-- The body of the `try` block in `listAvailableModels` for one version, given
the outcome of its `fetch`: `Except.error` is an exception reaching the `catch`,
`Except.ok (some ms)` is `return data.models`, `Except.ok none` falls through
to the next iteration. -/
def listAttempt (env : Env) : FetchResult → Except JsError (Option (List ModelEntry))
  | .rejected msg => .error ⟨msg⟩
  | .resolved response =>
    if response.ok then
      match response.json with
      | .rejected msg => .error ⟨msg⟩
      | .null => .error ⟨env.typeErrorMessage "models"⟩
      | .parsed data =>
        match data.models with
        | some (m :: ms) => .ok (some (m :: ms))
        | _ => .ok none
    else .ok none

/-- The `for (const version of ...)` loop of `listAvailableModels`, over the
versions still to try; `calls` are the requests issued so far in the run.
Returns the function's completion (`Except.error` would be an exception
escaping it), paired with the requests issued. -/
def listLoop (env : Env) (key : String) :
    List String → List Request → Except JsError (Option (List ModelEntry)) × List Request
  | [], calls => (.ok none, calls)
  | version :: rest, calls =>
    let req := Request.listModels version key
    match listAttempt env (env.fetch calls.length req) with
    | .ok (some ms) => (.ok (some ms), calls ++ [req])
    | .ok none => listLoop env key rest (calls ++ [req])
    | .error _ => listLoop env key rest (calls ++ [req])

/-- The function `listAvailableModels`, reading the global `apiKey`, which is
`null` (`none`) or a string; `null` and the empty string are falsy. -/
def listAvailableModels (env : Env) (apiKey : Option String) (calls : List Request) :
    Except JsError (Option (List ModelEntry)) × List Request :=
  match apiKey with
  | none => (.ok none, calls)
  | some key => if key = "" then (.ok none, calls) else listLoop env key apiVersions calls

/-! ## Discovered model names -/

/-- The method `String.prototype.replace(pattern, replacement)` with a string
pattern, on character lists: the first occurrence of `pat` is replaced. -/
def replaceFirstChars (pat rep : List Char) : List Char → List Char
  | [] => if pat = [] then rep else []
  | c :: cs =>
    if pat.isPrefixOf (c :: cs) then rep ++ (c :: cs).drop pat.length
    else c :: replaceFirstChars pat rep cs

/-- The expression `m.name.replace('models/', '')`. -/
def stripModels (name : String) : String :=
  String.mk (replaceFirstChars "models/".toList [] name.toList)

/-- The filter `m.supportedGenerationMethods?.includes('generateContent')` on
a model. -/
def supportsGenerate (m : ModelInfo) : Bool :=
  match m.supportedGenerationMethods with
  | none => false
  | some methods => methods.contains "generateContent"

/-- The callback `m => m.supportedGenerationMethods?.includes('generateContent')`
on an entry: reading the property of a `null` entry raises a `TypeError`. -/
def entrySupports (env : Env) : ModelEntry → Except JsError Bool
  | .null => .error ⟨env.typeErrorMessage "supportedGenerationMethods"⟩
  | .nameless none => .ok false
  | .nameless (some methods) => .ok (methods.contains "generateContent")
  | .model info => .ok (supportsGenerate info)

/-- The call `availableModels.filter(...)`: the callback runs on every entry in
order, and an exception it raises ends the call. -/
def filterSupported (env : Env) : List ModelEntry → Except JsError (List ModelEntry)
  | [] => .ok []
  | m :: ms =>
    match entrySupports env m with
    | .error e => .error e
    | .ok keep =>
      match filterSupported env ms with
      | .error e => .error e
      | .ok kept => .ok (if keep then m :: kept else kept)

/-- The callback `m => m.name.replace('models/', '')` on an entry: without a
string `name` the call of `replace` raises a `TypeError`. -/
def entryIdentifier (env : Env) : ModelEntry → Except JsError String
  | .null => .error ⟨env.typeErrorMessage "name"⟩
  | .nameless _ => .error ⟨env.typeErrorMessage "replace"⟩
  | .model info => .ok (stripModels info.name)

/-- The call `.map(m => m.name.replace('models/', ''))`. -/
def mapIdentifiers (env : Env) : List ModelEntry → Except JsError (List String)
  | [] => .ok []
  | m :: ms =>
    match entryIdentifier env m with
    | .error e => .error e
    | .ok identifier =>
      match mapIdentifiers env ms with
      | .error e => .error e
      | .ok identifiers => .ok (identifier :: identifiers)

/-- The list `supportedModels` of `sendMessage`: filter, then map.  Neither
call is inside a `try`, so `Except.error` is an exception escaping the caller. -/
def supportedModels (env : Env) (availableModels : List ModelEntry) :
    Except JsError (List String) :=
  match filterSupported env availableModels with
  | .error e => .error e
  | .ok kept => mapIdentifiers env kept

/-- The list `modelNames` of `saveApiKey`: filter, map, then `slice(0, 5)`. -/
def modelNames (env : Env) (models : List ModelEntry) : Except JsError (List String) :=
  match supportedModels env models with
  | .error e => .error e
  | .ok identifiers => .ok (identifiers.take 5)

/-! ## `sendMessage` -/

/-- The constant `modelConfigs`. -/
def modelConfigs : List ModelConfig :=
  [ ⟨"v1beta", "gemini-2.0-flash-exp"⟩,
    ⟨"v1beta", "gemini-1.5-pro"⟩,
    ⟨"v1beta", "gemini-1.5-flash"⟩,
    ⟨"v1beta", "gemini-pro"⟩,
    ⟨"v1", "gemini-1.5-pro"⟩,
    ⟨"v1", "gemini-1.5-flash"⟩,
    ⟨"v1", "gemini-pro"⟩ ]

/-- The text of the missing-key error. -/
def missingKeyText : String := "Please enter your Gemini API key first!"

/-- The text of the malformed-body error. -/
def unexpectedFormatText : String := "Unexpected response format from API"

/-- The fallback of `lastError ? lastError.message : ...`. -/
def connectFailedText : String := "Failed to connect to Gemini API."

/-- The fixed tail of the text given to `showError`. -/
def hintText : String :=
  " Please check your API key and ensure the Generative Language API is enabled."

/-- The request of the `fetch` in both generate loops. -/
def generateRequest (key message version model : String) : Request :=
  Request.generateContent version model key message

/-- The expression
`errorData.error?.message || "HTTP error! status: " + response.status`:
an absent or empty message is falsy. -/
def errorText (errorData : Body) (status : Nat) : String :=
  match errorData.error with
  | none => "HTTP error! status: " ++ toString status
  | some e =>
    match e.message with
    | none => "HTTP error! status: " ++ toString status
    | some m => if m = "" then "HTTP error! status: " ++ toString status else m

/-- The test `data.candidates && data.candidates[0] && data.candidates[0].content`:
the content of the first candidate when the test is truthy, `none` otherwise. -/
def firstContent (data : Body) : Option Content :=
  match data.candidates with
  | some (c :: _) => c.content
  | _ => none

/-- The expression `data.candidates[0].content.parts[0].text` once the test
passed: reading `[0]` of an absent `parts`, or `text` of an absent first part,
raises a `TypeError`; an absent `text` evaluates to `undefined` (`none`). -/
def partsText (env : Env) (content : Content) : Except JsError (Option String) :=
  match content.parts with
  | none => .error ⟨env.typeErrorMessage "0"⟩
  | some [] => .error ⟨env.typeErrorMessage "text"⟩
  | some (p :: _) => .ok p.text

/-- How one iteration of a generate loop ends. -/
inductive Attempt where
  | success (botResponse : Option String)
  | failure (lastError : JsError)
deriving DecidableEq, Repr

/-- One iteration of the loop over `modelConfigs`, given the outcome of its
`fetch`: `success t` is `showMessage(botResponse, 'bot'); return`, and
`failure e` is `lastError = e; continue` (also through the `catch`).  Reading
`errorData.error` or `data.candidates` of a `null` body raises a `TypeError`,
which the `catch` records. -/
def generateAttempt (env : Env) : FetchResult → Attempt
  | .rejected msg => .failure ⟨msg⟩
  | .resolved response =>
    if !response.ok then
      match response.json with
      | .rejected msg => .failure ⟨msg⟩
      | .null => .failure ⟨env.typeErrorMessage "error"⟩
      | .parsed errorData => .failure ⟨errorText errorData response.status⟩
    else
      match response.json with
      | .rejected msg => .failure ⟨msg⟩
      | .null => .failure ⟨env.typeErrorMessage "candidates"⟩
      | .parsed data =>
        match firstContent data with
        | some content =>
          match partsText env content with
          | .ok botResponse => .success botResponse
          | .error e => .failure e
        | none => .failure ⟨unexpectedFormatText⟩

/-- How a generate loop ends: by `return` after a success, or by running out
of entries, with the value of `lastError`. -/
inductive LoopResult where
  | returned (run : Run)
  | exhausted (run : Run) (lastError : Option JsError)
deriving DecidableEq, Repr

/-- The loop `for (const config of modelConfigs)`, over the entries still to try. -/
def staticLoop (env : Env) (key message : String) :
    List ModelConfig → Run → Option JsError → LoopResult
  | [], run, lastError => .exhausted run lastError
  | config :: rest, run, _lastError =>
    let req := generateRequest key message config.version config.model
    match generateAttempt env (env.fetch run.calls.length req) with
    | .success botResponse =>
      .returned ⟨run.ui ++ [.showMessage botResponse "bot"], run.calls ++ [req]⟩
    | .failure e => staticLoop env key message rest ⟨run.ui, run.calls ++ [req]⟩ (some e)

/-- One iteration of the retry loop of `sendMessage`, given the outcome of its
`fetch`: `some t` is `showMessage(botResponse, 'bot'); return`, `none` is going
on to the next version (nothing is recorded). -/
def retryAttempt (env : Env) : FetchResult → Option (Option String)
  | .rejected _ => none
  | .resolved response =>
    if response.ok then
      match response.json with
      | .rejected _ => none
      | .null => none
      | .parsed data =>
        match firstContent data with
        | some content =>
          match partsText env content with
          | .ok botResponse => some botResponse
          | .error _ => none
        | none => none
    else none

/-- The retry loop `for (const version of ['v1beta', 'v1'])` on `firstModel`,
over the versions still to try; the flag tells whether the function returned
from inside the loop. -/
def retryLoop (env : Env) (key message firstModel : String) :
    List String → Run → Run × Bool
  | [], run => (run, false)
  | version :: rest, run =>
    let req := generateRequest key message version firstModel
    match retryAttempt env (env.fetch run.calls.length req) with
    | some botResponse =>
      (⟨run.ui ++ [.showMessage botResponse "bot"], run.calls ++ [req]⟩, true)
    | none => retryLoop env key message firstModel rest ⟨run.ui, run.calls ++ [req]⟩

/-- The clause appended to `errorMsg` for a non-empty `supportedModels`. -/
def availableClause (supported : List String) : String :=
  " Available models: " ++ ", ".intercalate (supported.take 3) ++ "."

/-- The value of `lastError ? lastError.message : '...'`. -/
def lastErrorText : Option JsError → String
  | some e => e.message
  | none => connectFailedText

/-- The part of `sendMessage` after the loop over `modelConfigs` ran out:
discovery, the retry on the first supported model, and `showError`.  An
exception raised while `supportedModels` is built escapes `sendMessage`. -/
def discoveryRetry (env : Env) (apiKey : Option String) (key message : String)
    (run : Run) (lastError : Option JsError) : Except JsError Unit × Run :=
  match listAvailableModels env apiKey run.calls with
  | (.error e, calls) => (.error e, ⟨run.ui, calls⟩)
  | (.ok availableModels, calls) =>
    let errorMsg := lastErrorText lastError
    match availableModels with
    | some (m :: ms) =>
      match supportedModels env (m :: ms) with
      | .error e => (.error e, ⟨run.ui, calls⟩)
      | .ok (firstModel :: others) =>
        let errorMsg1 := errorMsg ++ availableClause (firstModel :: others)
        match retryLoop env key message firstModel apiVersions ⟨run.ui, calls⟩ with
        | (run1, true) => (.ok (), run1)
        | (run1, false) => (.ok (), ⟨run1.ui ++ [.showError (errorMsg1 ++ hintText)], run1.calls⟩)
      | .ok [] => (.ok (), ⟨run.ui ++ [.showError (errorMsg ++ hintText)], calls⟩)
    | _ => (.ok (), ⟨run.ui ++ [.showError (errorMsg ++ hintText)], calls⟩)

/-- The function `sendMessage`, on the trimmed input `message` and the global
`apiKey`.  The result is the completion of the function (`Except.error` would
be an exception escaping it) and the run. -/
def sendMessage (env : Env) (apiKey : Option String) (message : String) :
    Except JsError Unit × Run :=
  if message = "" then (.ok (), ⟨[], []⟩)
  else
    match apiKey with
    | none => (.ok (), ⟨[.showError missingKeyText], []⟩)
    | some key =>
      if key = "" then (.ok (), ⟨[.showError missingKeyText], []⟩)
      else
        let run0 : Run := ⟨[.showMessage (some message) "user",
                            .showMessage (some "Thinking...") "bot"], []⟩
        match staticLoop env key message modelConfigs run0 none with
        | .returned run => (.ok (), run)
        | .exhausted run lastError => discoveryRetry env apiKey key message run lastError

deriving instance DecidableEq for Except

/-! ## The response shapes named by the specification -/

/-- The text of a well-formed success: the fetch resolves with a success status
and a body of the shape `{candidates:[{content:{parts:[{text}]}}]}`, read at the
first candidate and the first part; `none` for every other outcome. -/
def wellFormedText : FetchResult → Option String
  | .resolved ⟨status, .parsed ⟨_, some (⟨some ⟨some (⟨some text⟩ :: _)⟩⟩ :: _), _⟩⟩ =>
    if 200 ≤ status ∧ status ≤ 299 then some text else none
  | _ => none

/-- The model set a list call delivers: the set of a call that resolves with a
success status and a body holding a non-empty `models` array; `none` for a
transport failure, a non-success status, an unreadable body, or a missing or
empty set. -/
def listedSet : FetchResult → Option (List ModelEntry)
  | .resolved ⟨status, .parsed ⟨_, _, some (m :: ms)⟩⟩ =>
    if 200 ≤ status ∧ status ≤ 299 then some (m :: ms) else none
  | _ => none

/-- The message recorded for an entry whose call returns the non-success status
`status`, as far as it is prescribed: the message of the exception of
`response.json()` when the body does not parse; the `error.message` of a
parsed body when it is present and not empty, and otherwise the text
`HTTP error! status: <status>`; nothing is prescribed for the body `null`. -/
def httpErrorMessage (status : Nat) : JsonResult → Option String
  | .rejected thrown => some thrown
  | .null => none
  | .parsed ⟨some ⟨some parsed⟩, _, _⟩ =>
    some (if parsed = "" then "HTTP error! status: " ++ toString status else parsed)
  | .parsed _ => some ("HTTP error! status: " ++ toString status)

/-! ## Concrete environments -/

/-- A success response whose first part carries `text` (`none`: a part without
a `text` property). -/
def partResponse (text : Option String) : FetchResult :=
  .resolved ⟨200, .parsed ⟨none, some [⟨some ⟨some [⟨text⟩]⟩⟩], none⟩⟩

/-- A success response listing `models`. -/
def modelsResponse (models : List ModelEntry) : FetchResult :=
  .resolved ⟨200, .parsed ⟨none, none, some models⟩⟩

/-- A model that only offers embeddings. -/
def embeddingModel : ModelEntry := .model ⟨"models/embedding-001", some ["embedContent"]⟩

/-- An engine whose `TypeError` text names the property that was read. -/
def engineText (p : String) : String :=
  "Cannot read properties of undefined (reading " ++ p ++ ")"

/-- The first call gets `{candidates:[{content:{parts:[{}]}}]}` with status 200,
every later call a well-formed success with text `hi`. -/
def textlessFirstEnv : Env :=
  ⟨fun n _ => if n = 0 then partResponse none else partResponse (some "hi"), engineText⟩

/-- Every call gets `{candidates:[{content:{parts:[{}]}}]}` with status 200. -/
def textlessEnv : Env := ⟨fun _ _ => partResponse none, engineText⟩

/-- Every call gets status 502 with a body that is not JSON. -/
def badGatewayEnv : Env :=
  ⟨fun _ _ => .resolved ⟨502, .rejected "Unexpected token < in JSON at position 0"⟩, engineText⟩

/-- Every generate call is rejected by the network; the list call returns one
model that does not support `generateContent`. -/
def embeddingOnlyEnv : Env :=
  ⟨fun _ req =>
    match req with
    | .listModels _ _ => modelsResponse [embeddingModel]
    | .generateContent _ _ _ _ => .rejected "Failed to fetch", engineText⟩

/-- Every call gets status 200 with the body `null`. -/
def nullBodyEnv : Env := ⟨fun _ _ => .resolved ⟨200, .null⟩, engineText⟩

/-- Every call gets status 200 with `{candidates:[{content:{}}]}`. -/
def partlessEnv : Env :=
  ⟨fun _ _ => .resolved ⟨200, .parsed ⟨none, some [⟨some ⟨none⟩⟩], none⟩⟩, engineText⟩

/-- The first call gets status 404 with the error body
`{error:{message:"model not found"}}`, every later call a well-formed success
with text `hi`. -/
def notFoundFirstEnv : Env :=
  ⟨fun n _ =>
    if n = 0 then .resolved ⟨404, .parsed ⟨some ⟨some "model not found"⟩, none, none⟩⟩
    else partResponse (some "hi"), engineText⟩

/-- A model that supports `generateContent`. -/
def chatModel : ModelEntry :=
  .model ⟨"models/gemini-x", some ["generateContent", "countTokens"]⟩

/-- Every generate call is rejected by the network; the list call returns an
embedding model followed by a model that supports `generateContent`. -/
def listedButDownEnv : Env :=
  ⟨fun _ req =>
    match req with
    | .listModels _ _ => modelsResponse [embeddingModel, chatModel]
    | .generateContent _ _ _ _ => .rejected "Failed to fetch", engineText⟩

/-- The list call returns one model that supports `generateContent`; a
generate call for it gets `{candidates:[{content:{parts:[{}]}}]}` with status
200 on `v1beta` and a well-formed success with text `hi` on `v1`; every other
generate call is rejected by the network. -/
def textlessRetryEnv : Env :=
  ⟨fun _ req =>
    match req with
    | .listModels _ _ => modelsResponse [chatModel]
    | .generateContent version model _ _ =>
      if model = "gemini-x" then
        if version = "v1beta" then partResponse none else partResponse (some "hi")
      else .rejected "Failed to fetch",
    engineText⟩

/-- The list call returns a model that supports `generateContent` followed by
a supporting entry without a `name`; a generate call for the first gets a
well-formed success with text `hi`; every other generate call is rejected by
the network. -/
def namelessLaterEnv : Env :=
  ⟨fun _ req =>
    match req with
    | .listModels _ _ => modelsResponse [chatModel, .nameless (some ["generateContent"])]
    | .generateContent _ model _ _ =>
      if model = "gemini-x" then partResponse (some "hi") else .rejected "Failed to fetch",
    engineText⟩

/-- Every call is rejected by the network. -/
def offlineEnv : Env := ⟨fun _ _ => .rejected "Failed to fetch", engineText⟩

/-- The requests of the loop over `configs`, in order. -/
def staticRequests (key message : String) (configs : List ModelConfig) : List Request :=
  configs.map (fun c => generateRequest key message c.version c.model)

/-! ## Helper lemmas -/

theorem ok_iff (r : Response) : r.ok = true ↔ 200 ≤ r.status ∧ r.status ≤ 299 := by
  simp [Response.ok]

theorem listAttempt_listedSet (env : Env) (r : FetchResult) :
    (listAttempt env r = .ok (listedSet r)) ∨
      (listedSet r = none ∧ ∃ e, listAttempt env r = .error e) := by
  rcases r with msg | ⟨status, json⟩
  · right; exact ⟨rfl, ⟨msg⟩, rfl⟩
  · by_cases h : 200 ≤ status ∧ status ≤ 299
    · have hok : (Response.mk status json).ok = true := (ok_iff _).2 h
      rcases json with msg | _ | ⟨error, candidates, models⟩
      · right; exact ⟨rfl, ⟨msg⟩, by simp [listAttempt, hok]⟩
      · right; exact ⟨rfl, ⟨env.typeErrorMessage "models"⟩, by simp [listAttempt, hok]⟩
      · left
        rcases models with _ | _ | ⟨m, ms⟩ <;> simp [listAttempt, listedSet, hok, h]
    · have hok : (Response.mk status json).ok = false := by
        rw [Bool.eq_false_iff]; intro hc; exact h ((ok_iff _).1 hc)
      left
      rcases json with msg | _ | ⟨error, candidates, models⟩
      · simp [listAttempt, listedSet, hok]
      · simp [listAttempt, listedSet, hok]
      · rcases models with _ | _ | ⟨m, ms⟩ <;> simp [listAttempt, listedSet, hok, h]

theorem listLoop_nil (env : Env) (key : String) (calls : List Request) :
    listLoop env key [] calls = (.ok none, calls) := rfl

theorem listLoop_cons (env : Env) (key version : String) (rest : List String)
    (calls : List Request) :
    listLoop env key (version :: rest) calls =
      match listedSet (env.fetch calls.length (.listModels version key)) with
      | some ms => (.ok (some ms), calls ++ [.listModels version key])
      | none => listLoop env key rest (calls ++ [.listModels version key]) := by
  rcases listAttempt_listedSet env (env.fetch calls.length (.listModels version key))
    with h | ⟨h, e, he⟩
  · cases hs : listedSet (env.fetch calls.length (.listModels version key)) with
    | none => rw [hs] at h; simp [listLoop, h]
    | some ms => rw [hs] at h; simp [listLoop, h]
  · simp [listLoop, h, he]

theorem staticLoop_all_fail (env : Env) (key message : String) (errs : Nat → JsError) :
    ∀ (configs : List ModelConfig) (run : Run) (lastError : Option JsError),
      (∀ i c, configs[i]? = some c →
        generateAttempt env (env.fetch (run.calls.length + i)
          (generateRequest key message c.version c.model)) = .failure (errs (run.calls.length + i))) →
      staticLoop env key message configs run lastError =
        .exhausted ⟨run.ui, run.calls ++ staticRequests key message configs⟩
          (match configs with
            | [] => lastError
            | _ :: _ => some (errs (run.calls.length + configs.length - 1))) := by
  intro configs
  induction configs with
  | nil => intro run lastError _; simp [staticLoop, staticRequests]
  | cons c rest ih =>
    intro run lastError h
    have h0 := h 0 c (by simp)
    simp only [Nat.add_zero] at h0
    have hrest : ∀ i d, rest[i]? = some d →
        generateAttempt env (env.fetch
          ((Run.mk run.ui (run.calls ++ [generateRequest key message c.version c.model])).calls.length + i)
          (generateRequest key message d.version d.model)) =
        .failure (errs ((Run.mk run.ui
          (run.calls ++ [generateRequest key message c.version c.model])).calls.length + i)) := by
      intro i d hd
      have := h (i + 1) d (by simpa using hd)
      simp only [List.length_append, List.length_singleton]
      rw [show run.calls.length + 1 + i = run.calls.length + (i + 1) by omega]
      exact this
    have step : staticLoop env key message (c :: rest) run lastError =
        staticLoop env key message rest
          ⟨run.ui, run.calls ++ [generateRequest key message c.version c.model]⟩
          (some (errs run.calls.length)) := by
      simp [staticLoop, h0]
    rw [step, ih _ _ hrest]
    cases rest with
    | nil => simp [staticRequests]
    | cons d rest2 =>
      simp only [staticRequests, List.map_cons, List.length_append, List.length_singleton,
        List.length_cons, List.append_assoc, List.singleton_append]
      have : run.calls.length + (([] : List Request).length + 1) + (rest2.length + 1) - 1 =
          run.calls.length + (rest2.length + 1 + 1) - 1 := by
        simp only [List.length_nil]; omega
      rw [this]

theorem retryLoop_fail_ui (env : Env) (key message firstModel : String) :
    ∀ (versions : List String) (run r : Run),
      retryLoop env key message firstModel versions run = (r, false) → r.ui = run.ui := by
  intro versions
  induction versions with
  | nil => intro run r h; simp [retryLoop] at h; rw [← h]
  | cons v rest ih =>
    intro run r h
    unfold retryLoop at h
    simp only [] at h
    split at h
    · simp at h
    · exact ih ⟨run.ui, run.calls ++ [generateRequest key message v firstModel]⟩ r h

theorem wellFormedText_some (r : FetchResult) (text : String)
    (h : wellFormedText r = some text) :
    ∃ status error p ps cs models, r = .resolved ⟨status,
        .parsed ⟨error, some (⟨some ⟨some (⟨some text⟩ :: ps)⟩⟩ :: cs), models⟩⟩ ∧
      (200 ≤ status ∧ status ≤ 299) ∧ p = text := by
  unfold wellFormedText at h
  split at h
  · rename_i status error t ps cs models
    split at h
    · rename_i hs
      simp only [Option.some.injEq] at h
      subst h
      exact ⟨status, error, t, ps, cs, models, rfl, hs, rfl⟩
    · simp at h
  · simp at h

theorem generateAttempt_wellFormed (env : Env) (r : FetchResult) (text : String)
    (h : wellFormedText r = some text) : generateAttempt env r = .success (some text) := by
  obtain ⟨status, error, p, ps, cs, models, rfl, hs, -⟩ := wellFormedText_some r text h
  have hok : (Response.mk status (.parsed ⟨error,
      some (⟨some ⟨some (⟨some text⟩ :: ps)⟩⟩ :: cs), models⟩)).ok = true := (ok_iff _).2 hs
  simp [generateAttempt, hok, firstContent, partsText]

theorem retryAttempt_wellFormed (env : Env) (r : FetchResult) (text : String)
    (h : wellFormedText r = some text) : retryAttempt env r = some (some text) := by
  obtain ⟨status, error, p, ps, cs, models, rfl, hs, -⟩ := wellFormedText_some r text h
  have hok : (Response.mk status (.parsed ⟨error,
      some (⟨some ⟨some (⟨some text⟩ :: ps)⟩⟩ :: cs), models⟩)).ok = true := (ok_iff _).2 hs
  simp [retryAttempt, hok, firstContent, partsText]

theorem sendMessage_exhausted (env : Env) (key message : String) (errs : Nat → JsError)
    (hm : message ≠ "") (hk : key ≠ "")
    (hfail : ∀ i c, modelConfigs[i]? = some c →
      generateAttempt env (env.fetch i (generateRequest key message c.version c.model)) =
        .failure (errs i)) :
    sendMessage env (some key) message =
      discoveryRetry env (some key) key message
        ⟨[.showMessage (some message) "user", .showMessage (some "Thinking...") "bot"],
          staticRequests key message modelConfigs⟩ (some (errs 6)) := by
  have h := staticLoop_all_fail env key message errs modelConfigs
    ⟨[.showMessage (some message) "user", .showMessage (some "Thinking...") "bot"], []⟩ none
    (by intro i c hc; simpa using hfail i c hc)
  simp only [sendMessage, hm, hk, if_false]
  rw [h]
  simp [modelConfigs]

theorem replaceFirstChars_spec (pat : List Char) (hp : pat ≠ []) :
    ∀ l : List Char,
      (∃ pre suf, l = pre ++ pat ++ suf ∧
          (∀ p q, l = p ++ pat ++ q → pre.length ≤ p.length) ∧
          replaceFirstChars pat [] l = pre ++ suf) ∨
        ((∀ p q, l ≠ p ++ pat ++ q) ∧ replaceFirstChars pat [] l = l) := by
  intro l
  induction l with
  | nil =>
    right
    refine ⟨?_, by simp [replaceFirstChars]⟩
    intro p q h
    have := congrArg List.length h
    simp only [List.length_nil, List.length_append] at this
    have : pat.length = 0 := by omega
    exact hp (List.length_eq_zero.1 this)
  | cons c cs ih =>
    by_cases hpre : pat.isPrefixOf (c :: cs) = true
    · left
      obtain ⟨suf, hsuf⟩ := List.isPrefixOf_iff_prefix.1 hpre
      refine ⟨[], suf, by simpa using hsuf.symm, by simp, ?_⟩
      simp only [replaceFirstChars, hpre, if_true, List.nil_append]
      rw [← hsuf]
      simp
    · have hno : ∀ q, c :: cs ≠ pat ++ q := by
        intro q hq
        exact hpre (List.isPrefixOf_iff_prefix.2 ⟨q, hq.symm⟩)
      have hrep : replaceFirstChars pat [] (c :: cs) = c :: replaceFirstChars pat [] cs := by
        simp [replaceFirstChars, hpre]
      rcases ih with ⟨pre, suf, hl, hfirst, hr⟩ | ⟨hnone, hr⟩
      · left
        refine ⟨c :: pre, suf, by simp [hl], ?_, by simp [hrep, hr]⟩
        intro p q hpq
        cases p with
        | nil => exact absurd (by simpa using hpq) (hno q)
        | cons d p2 =>
          simp only [List.cons_append, List.cons.injEq] at hpq
          have := hfirst p2 q hpq.2
          simp only [List.length_cons]
          omega
      · right
        refine ⟨?_, by rw [hrep, hr]⟩
        intro p q hpq
        cases p with
        | nil => exact hno q (by simpa using hpq)
        | cons d p2 =>
          simp only [List.cons_append, List.cons.injEq] at hpq
          exact hnone p2 q hpq.2

/-- When the entries before `c` are all recorded as failures and the call for
`c` gets a well-formed success, the loop shows its text and returns, having
issued the requests up to `c` in list order and none after it. -/
theorem staticLoop_first_success (env : Env) (key message : String) (errs : Nat → JsError)
    (c : ModelConfig) (after : List ModelConfig) (text : String) :
    ∀ (before : List ModelConfig) (run : Run) (lastError : Option JsError),
      (∀ i d, before[i]? = some d →
        generateAttempt env (env.fetch (run.calls.length + i)
          (generateRequest key message d.version d.model)) = .failure (errs (run.calls.length + i))) →
      wellFormedText (env.fetch (run.calls.length + before.length)
        (generateRequest key message c.version c.model)) = some text →
      staticLoop env key message (before ++ c :: after) run lastError =
        .returned ⟨run.ui ++ [.showMessage (some text) "bot"],
          run.calls ++ staticRequests key message (before ++ [c])⟩ := by
  intro before
  induction before with
  | nil =>
    intro run lastError _ hwf
    have := generateAttempt_wellFormed env _ text hwf
    simp only [List.length_nil, Nat.add_zero] at this
    simp [staticLoop, staticRequests, this]
  | cons b rest ih =>
    intro run lastError h hwf
    have h0 := h 0 b (by simp)
    simp only [Nat.add_zero] at h0
    have step : staticLoop env key message (b :: rest ++ c :: after) run lastError =
        staticLoop env key message (rest ++ c :: after)
          ⟨run.ui, run.calls ++ [generateRequest key message b.version b.model]⟩
          (some (errs run.calls.length)) := by
      simp [staticLoop, h0]
    rw [step, ih ⟨run.ui, run.calls ++ [generateRequest key message b.version b.model]⟩]
    · simp [staticRequests]
    · intro i d hd
      have := h (i + 1) d (by simpa using hd)
      simp only [List.length_append, List.length_singleton]
      rw [show run.calls.length + 1 + i = run.calls.length + (i + 1) by omega]
      exact this
    · simp only [List.length_append, List.length_singleton]
      rw [show run.calls.length + 1 + rest.length = run.calls.length + (b :: rest).length by
        simp only [List.length_cons]; omega]
      exact hwf

theorem filterSupported_model (env : Env) (ms : List ModelInfo) :
    filterSupported env (ms.map ModelEntry.model) =
      .ok ((ms.filter supportsGenerate).map ModelEntry.model) := by
  induction ms with
  | nil => rfl
  | cons m rest ih =>
    simp only [List.map_cons, filterSupported, entrySupports, ih, List.filter_cons]
    cases supportsGenerate m <;> simp

theorem mapIdentifiers_model (env : Env) (ms : List ModelInfo) :
    mapIdentifiers env (ms.map ModelEntry.model) =
      .ok (ms.map (fun m => stripModels m.name)) := by
  induction ms with
  | nil => rfl
  | cons m rest ih => simp [mapIdentifiers, entryIdentifier, ih]

theorem supportedModels_model (env : Env) (ms : List ModelInfo) :
    supportedModels env (ms.map ModelEntry.model) =
      .ok ((ms.filter supportsGenerate).map (fun m => stripModels m.name)) := by
  simp [supportedModels, filterSupported_model, mapIdentifiers_model]

theorem staticLoop_cons_failure (env : Env) (key message : String) (config : ModelConfig)
    (rest : List ModelConfig) (run : Run) (lastError : Option JsError) (e : JsError)
    (h : generateAttempt env (env.fetch run.calls.length
      (generateRequest key message config.version config.model)) = .failure e) :
    staticLoop env key message (config :: rest) run lastError =
      staticLoop env key message rest
        ⟨run.ui, run.calls ++ [generateRequest key message config.version config.model]⟩
        (some e) := by
  simp [staticLoop, h]

theorem staticLoop_failure_then (env : Env) (key message : String) (config : ModelConfig)
    (run : Run) (lastError : Option JsError) (e : JsError)
    (h : generateAttempt env (env.fetch run.calls.length
      (generateRequest key message config.version config.model)) = .failure e) :
    staticLoop env key message [config] run lastError =
        .exhausted
          ⟨run.ui, run.calls ++ [generateRequest key message config.version config.model]⟩
          (some e) ∧
      ∀ (next : ModelConfig) (after : List ModelConfig) (text : String),
        wellFormedText (env.fetch (run.calls.length + 1)
          (generateRequest key message next.version next.model)) = some text →
        staticLoop env key message (config :: next :: after) run lastError =
          .returned ⟨run.ui ++ [.showMessage (some text) "bot"],
            run.calls ++ [generateRequest key message config.version config.model,
              generateRequest key message next.version next.model]⟩ := by
  refine ⟨by simp [staticLoop, h], ?_⟩
  intro next after text hwf
  rw [staticLoop_cons_failure env key message config _ run lastError e h]
  have hs := generateAttempt_wellFormed env _ text hwf
  simp [staticLoop, hs]

/-- For a success response whose body can be read and has no `candidates`, an
empty `candidates` list, or a first candidate without `content`, the entry is
recorded with the text `Unexpected response format from API`, the UI is left
untouched and the loop goes on with the next entry. -/
theorem staticLoop_missing_content (env : Env) (key message : String) (config : ModelConfig)
    (run : Run) (lastError : Option JsError) (status : Nat) (data : Body)
    (hfetch : env.fetch run.calls.length
      (generateRequest key message config.version config.model) = .resolved ⟨status, .parsed data⟩)
    (hok : 200 ≤ status ∧ status ≤ 299)
    (hshape : data.candidates = none ∨ data.candidates = some [] ∨
      ∃ cs, data.candidates = some (⟨none⟩ :: cs)) :
    staticLoop env key message [config] run lastError =
        .exhausted
          ⟨run.ui, run.calls ++ [generateRequest key message config.version config.model]⟩
          (some ⟨"Unexpected response format from API"⟩) ∧
      ∀ (next : ModelConfig) (after : List ModelConfig) (text : String),
        wellFormedText (env.fetch (run.calls.length + 1)
          (generateRequest key message next.version next.model)) = some text →
        staticLoop env key message (config :: next :: after) run lastError =
          .returned ⟨run.ui ++ [.showMessage (some text) "bot"],
            run.calls ++ [generateRequest key message config.version config.model,
              generateRequest key message next.version next.model]⟩ := by
  have hok2 : (Response.mk status (.parsed data)).ok = true := (ok_iff _).2 hok
  have hnone : firstContent data = none := by
    rcases hshape with h | h | ⟨cs, h⟩ <;> simp [firstContent, h]
  exact staticLoop_failure_then env key message config run lastError _
    (by simp [hfetch, generateAttempt, hok2, hnone, unexpectedFormatText])

/-! ## Claims -/

/-- C3: for a non-empty message, when the key is absent or empty, `sendMessage`
calls `showError` with the missing-key text, makes no other UI call, and issues
no request at all. -/
theorem sendMessage_missing_key (env : Env) (apiKey : Option String) (message : String)
    (hm : message ≠ "") (hk : apiKey = none ∨ apiKey = some "") :
    sendMessage env apiKey message =
      (.ok (), ⟨[.showError "Please enter your Gemini API key first!"], []⟩) := by
  rcases hk with rfl | rfl <;> simp [sendMessage, hm, missingKeyText]

theorem sendMessage_missing_key_witness :
    sendMessage ⟨fun _ _ => .rejected "offline", fun p => p⟩ (some "") "hello" =
      (.ok (), ⟨[.showError "Please enter your Gemini API key first!"], []⟩) :=
  sendMessage_missing_key _ (some "") "hello" (by decide) (Or.inr rfl)

/-- C6: for a non-empty key, `listAvailableModels` asks `v1beta` first; when
that call delivers a non-empty model set it returns that set having issued
only that call; otherwise it asks `v1` and returns what that call delivers,
which is `null` when it delivers no set either; it always completes normally. -/
theorem listAvailableModels_first_set (env : Env) (key : String) (calls : List Request)
    (hk : key ≠ "") :
    listAvailableModels env (some key) calls =
      match listedSet (env.fetch calls.length (.listModels "v1beta" key)) with
      | some ms => (.ok (some ms), calls ++ [.listModels "v1beta" key])
      | none =>
        (.ok (listedSet (env.fetch (calls.length + 1) (.listModels "v1" key))),
          calls ++ [.listModels "v1beta" key, .listModels "v1" key]) := by
  simp only [listAvailableModels, hk, if_false, apiVersions]
  rw [listLoop_cons]
  cases h1 : listedSet (env.fetch calls.length (.listModels "v1beta" key)) with
  | some ms => rfl
  | none =>
    simp only []
    rw [listLoop_cons]
    simp only [List.length_append, List.length_singleton, listLoop_nil, List.append_assoc,
      List.singleton_append]
    cases h2 : listedSet (env.fetch (calls.length + 1) (.listModels "v1" key)) with
    | some ms => rfl
    | none => rfl

theorem listAvailableModels_first_set_witness :
    listAvailableModels embeddingOnlyEnv (some "k") [] =
      (.ok (some [embeddingModel]), [.listModels "v1beta" "k"]) :=
  (listAvailableModels_first_set embeddingOnlyEnv "k" [] (by decide)).trans rfl

/-- C7 as stated fails: an entry whose call returns status 502 with a body that
is not JSON is recorded with the message of the exception raised by
`response.json()`, which is neither a message parsed from the body (there is
none) nor the generic text for status 502. -/
theorem unparsed_error_body_message :
    badGatewayEnv.fetch 0 (generateRequest "k" "hello" "v1" "gemini-pro") =
        .resolved ⟨502, .rejected "Unexpected token < in JSON at position 0"⟩ ∧
      (Response.mk 502 (.rejected "Unexpected token < in JSON at position 0")).ok = false ∧
      staticLoop badGatewayEnv "k" "hello" [⟨"v1", "gemini-pro"⟩] ⟨[], []⟩ none =
        .exhausted ⟨[], [generateRequest "k" "hello" "v1" "gemini-pro"]⟩
          (some ⟨"Unexpected token < in JSON at position 0"⟩) ∧
      "Unexpected token < in JSON at position 0" ≠ "HTTP error! status: 502" := by
  refine ⟨rfl, rfl, rfl, by decide⟩

/-- C9 fails on the code: a success response whose first part has no `text`
passes the test on `candidates[0].content`, so `sendMessage` shows `undefined`
as the bot response and returns after the first request; and a success
response whose `content` has no `parts` is recorded with the engine text of
the `TypeError`, not with `Unexpected response format from API`. -/
theorem sendMessage_textless_part_accepted :
    sendMessage textlessEnv (some "k") "hello" =
        (.ok (), ⟨[.showMessage (some "hello") "user", .showMessage (some "Thinking...") "bot",
            .showMessage none "bot"],
          [generateRequest "k" "hello" "v1beta" "gemini-2.0-flash-exp"]⟩) ∧
      staticLoop partlessEnv "k" "hello" [⟨"v1", "gemini-pro"⟩] ⟨[], []⟩ none =
        .exhausted ⟨[], [generateRequest "k" "hello" "v1" "gemini-pro"]⟩
          (some ⟨engineText "0"⟩) := by
  refine ⟨rfl, rfl⟩

/-- C1 fails on the code: the first entry gets a success status with the body
`{candidates:[{content:{parts:[{}]}}]}`, which is not well formed, and the
second entry would get a well-formed success with text `hi`; `sendMessage`
shows `undefined` as the bot response of the first entry and never issues the
request of the second. -/
theorem sendMessage_stops_at_textless_part :
    wellFormedText (textlessFirstEnv.fetch 0
        (generateRequest "k" "hello" "v1beta" "gemini-2.0-flash-exp")) = none ∧
      wellFormedText (textlessFirstEnv.fetch 1
        (generateRequest "k" "hello" "v1beta" "gemini-1.5-pro")) = some "hi" ∧
      sendMessage textlessFirstEnv (some "k") "hello" =
        (.ok (), ⟨[.showMessage (some "hello") "user", .showMessage (some "Thinking...") "bot",
            .showMessage none "bot"],
          [generateRequest "k" "hello" "v1beta" "gemini-2.0-flash-exp"]⟩) := by
  refine ⟨rfl, rfl, rfl⟩

/-- C5: for a non-empty message and key, when every entry of `modelConfigs`
fails and `listAvailableModels` returns `null`, `sendMessage` ends by calling
`showError` with the message of the last failure followed directly by the fixed
hint (no `Available models` clause), having issued the seven static requests
and the two list requests and no retry request. -/
theorem sendMessage_discovery_empty (env : Env) (key message : String) (errs : Nat → JsError)
    (hm : message ≠ "") (hk : key ≠ "")
    (hfail : ∀ i c, modelConfigs[i]? = some c →
      generateAttempt env (env.fetch i (generateRequest key message c.version c.model)) =
        .failure (errs i))
    (hempty : (listAvailableModels env (some key)
      (staticRequests key message modelConfigs)).1 = .ok none) :
    sendMessage env (some key) message =
      (.ok (), ⟨[.showMessage (some message) "user", .showMessage (some "Thinking...") "bot",
          .showError ((errs 6).message ++
            " Please check your API key and ensure the Generative Language API is enabled.")],
        staticRequests key message modelConfigs ++
          [.listModels "v1beta" key, .listModels "v1" key]⟩) := by
  rw [sendMessage_exhausted env key message errs hm hk hfail]
  have hl := listAvailableModels_first_set env key (staticRequests key message modelConfigs) hk
  rw [hl] at hempty
  unfold discoveryRetry
  simp only []
  rw [hl]
  cases h1 : listedSet (env.fetch (staticRequests key message modelConfigs).length
      (.listModels "v1beta" key)) with
  | some ms => rw [h1] at hempty; simp at hempty
  | none =>
    rw [h1] at hempty
    simp only [Except.ok.injEq] at hempty
    simp [hempty, lastErrorText, hintText]

theorem sendMessage_discovery_empty_witness :
    sendMessage offlineEnv (some "k") "hello" =
      (.ok (), ⟨[.showMessage (some "hello") "user", .showMessage (some "Thinking...") "bot",
          .showError ("Failed to fetch" ++
            " Please check your API key and ensure the Generative Language API is enabled.")],
        staticRequests "k" "hello" modelConfigs ++
          [.listModels "v1beta" "k", .listModels "v1" "k"]⟩) :=
  sendMessage_discovery_empty offlineEnv "k" "hello" (fun _ => ⟨"Failed to fetch"⟩)
    (by decide) (by decide) (fun _ _ _ => rfl) rfl

/-- C4 as stated fails: every static entry fails with `Failed to fetch`,
discovery produces a non-empty model list (one embedding model), and the text
given to `showError` carries no `Available models` clause, so it differs from
the text the claim prescribes for a non-empty list. -/
theorem embedding_only_list_adds_no_clause :
    (listAvailableModels embeddingOnlyEnv (some "k")
        (staticRequests "k" "hello" modelConfigs)).1 = .ok (some [embeddingModel]) ∧
      sendMessage embeddingOnlyEnv (some "k") "hello" =
        (.ok (), ⟨[.showMessage (some "hello") "user", .showMessage (some "Thinking...") "bot",
            .showError ("Failed to fetch" ++
              " Please check your API key and ensure the Generative Language API is enabled.")],
          staticRequests "k" "hello" modelConfigs ++ [.listModels "v1beta" "k"]⟩) ∧
      "Failed to fetch" ++
          " Please check your API key and ensure the Generative Language API is enabled." ≠
        "Failed to fetch" ++ " Available models: " ++ "embedding-001" ++ "." ++
          " Please check your API key and ensure the Generative Language API is enabled." := by
  refine ⟨rfl, rfl, by decide⟩

/-- C10 as stated fails: the name `publishers/google/models/gemini-pro` does
not start with `models/`, yet its identifier is not the name unchanged: the
inner `models/` is removed. -/
theorem stripModels_inner_occurrence :
    "models/".toList.isPrefixOf "publishers/google/models/gemini-pro".toList = false ∧
      stripModels "publishers/google/models/gemini-pro" = "publishers/google/gemini-pro" ∧
      stripModels "publishers/google/models/gemini-pro" ≠
        "publishers/google/models/gemini-pro" := by
  refine ⟨by decide, by decide, by decide⟩

/-- C8 fails on the code: a success response whose body is JSON `null` has no
`candidates[0].content`, yet the entry is recorded with the engine text of the
`TypeError` raised by reading `data.candidates`, not with
`Unexpected response format from API`; when every call is answered this way
that engine text is what `showError` reports. -/
theorem sendMessage_null_body_message :
    nullBodyEnv.fetch 0 (generateRequest "k" "hello" "v1beta" "gemini-2.0-flash-exp") =
        .resolved ⟨200, .null⟩ ∧
      staticLoop nullBodyEnv "k" "hello" [⟨"v1beta", "gemini-2.0-flash-exp"⟩] ⟨[], []⟩ none =
        .exhausted ⟨[], [generateRequest "k" "hello" "v1beta" "gemini-2.0-flash-exp"]⟩
          (some ⟨engineText "candidates"⟩) ∧
      engineText "candidates" ≠ "Unexpected response format from API" ∧
      sendMessage nullBodyEnv (some "k") "hello" =
        (.ok (), ⟨[.showMessage (some "hello") "user", .showMessage (some "Thinking...") "bot",
            .showError (engineText "candidates" ++
              " Please check your API key and ensure the Generative Language API is enabled.")],
          staticRequests "k" "hello" modelConfigs ++
            [.listModels "v1beta" "k", .listModels "v1" "k"]⟩) := by
  refine ⟨rfl, rfl, by decide, rfl⟩

/-- C7, amended: in the loop over `modelConfigs`, an entry whose call returns a
non-success status leaves the UI untouched and is recorded with: the
`error.message` of the body when the body parses to a value other than `null`
and that message is present and not empty; the text
`HTTP error! status: <status>` when the body parses to a value other than
`null` without such a message; the message of the exception of
`response.json()` when the body does not parse.  In each case the loop goes on
with the next entry: as the last entry it leaves exactly this failure as
`lastError`, and followed by an entry that gets a well-formed success the
request of that entry is issued next and its text is shown. -/
theorem staticLoop_http_error (env : Env) (key message : String) (config : ModelConfig)
    (run : Run) (lastError : Option JsError) (status : Nat) (json : JsonResult)
    (recorded : String)
    (hfetch : env.fetch run.calls.length
      (generateRequest key message config.version config.model) = .resolved ⟨status, json⟩)
    (hbad : ¬ (200 ≤ status ∧ status ≤ 299))
    (hmsg : httpErrorMessage status json = some recorded) :
    staticLoop env key message [config] run lastError =
        .exhausted
          ⟨run.ui, run.calls ++ [generateRequest key message config.version config.model]⟩
          (some ⟨recorded⟩) ∧
      ∀ (next : ModelConfig) (after : List ModelConfig) (text : String),
        wellFormedText (env.fetch (run.calls.length + 1)
          (generateRequest key message next.version next.model)) = some text →
        staticLoop env key message (config :: next :: after) run lastError =
          .returned ⟨run.ui ++ [.showMessage (some text) "bot"],
            run.calls ++ [generateRequest key message config.version config.model,
              generateRequest key message next.version next.model]⟩ := by
  have hok : (Response.mk status json).ok = false := by
    rw [Bool.eq_false_iff]; intro hc; exact hbad ((ok_iff _).1 hc)
  have hattempt : generateAttempt env (env.fetch run.calls.length
      (generateRequest key message config.version config.model)) = .failure ⟨recorded⟩ := by
    rw [hfetch]
    rcases json with thrown | _ | ⟨error, candidates, models⟩
    · simp only [httpErrorMessage, Option.some.injEq] at hmsg
      simp [generateAttempt, hok, hmsg]
    · simp [httpErrorMessage] at hmsg
    · rcases error with _ | ⟨_ | parsed⟩ <;>
        simp only [httpErrorMessage, Option.some.injEq] at hmsg <;>
        simp [generateAttempt, hok, errorText, hmsg]
  exact staticLoop_failure_then env key message config run lastError _ hattempt

theorem staticLoop_http_error_witness :
    staticLoop notFoundFirstEnv "k" "hello" [⟨"v1beta", "gemini-pro"⟩] ⟨[], []⟩ none =
        .exhausted ⟨[], [generateRequest "k" "hello" "v1beta" "gemini-pro"]⟩
          (some ⟨"model not found"⟩) ∧
      staticLoop notFoundFirstEnv "k" "hello"
          [⟨"v1beta", "gemini-pro"⟩, ⟨"v1", "gemini-pro"⟩, ⟨"v1", "gemini-1.5-pro"⟩]
          ⟨[], []⟩ none =
        .returned ⟨[.showMessage (some "hi") "bot"],
          [generateRequest "k" "hello" "v1beta" "gemini-pro",
            generateRequest "k" "hello" "v1" "gemini-pro"]⟩ :=
  have h := staticLoop_http_error notFoundFirstEnv "k" "hello" ⟨"v1beta", "gemini-pro"⟩
    ⟨[], []⟩ none 404 (.parsed ⟨some ⟨some "model not found"⟩, none, none⟩) "model not found"
    rfl (by decide) rfl
  ⟨h.1, h.2 ⟨"v1", "gemini-pro"⟩ [⟨"v1", "gemini-1.5-pro"⟩] "hi" rfl⟩

/-- C4, amended: when every entry of `modelConfigs` fails, the identifiers of
the discovered models that support `generateContent` can be built, and the
retry on the first of them does not succeed either, the text given to
`showError` is the message of the last static failure, followed, exactly when
there is at least one such identifier, by ` Available models: `, the first up
to three identifiers joined by `, `, and `.`, followed by the fixed hint; it
does not depend on how the retry requests failed. -/
theorem sendMessage_error_text (env : Env) (key message : String) (errs : Nat → JsError)
    (avail : Option (List ModelEntry)) (calls1 : List Request) (identifiers : List String)
    (hm : message ≠ "") (hk : key ≠ "")
    (hfail : ∀ i c, modelConfigs[i]? = some c →
      generateAttempt env (env.fetch i (generateRequest key message c.version c.model)) =
        .failure (errs i))
    (hdisc : listAvailableModels env (some key) (staticRequests key message modelConfigs) =
      (.ok avail, calls1))
    (hids : supportedModels env (avail.getD []) = .ok identifiers)
    (hretry : ∀ first others, identifiers = first :: others →
      (retryLoop env key message first apiVersions
        ⟨[.showMessage (some message) "user", .showMessage (some "Thinking...") "bot"],
          calls1⟩).2 = false) :
    ∃ calls, sendMessage env (some key) message =
      (.ok (), ⟨[.showMessage (some message) "user", .showMessage (some "Thinking...") "bot",
          .showError ((errs 6).message ++
            (if identifiers = [] then ""
              else " Available models: " ++ ", ".intercalate (identifiers.take 3) ++ ".") ++
            " Please check your API key and ensure the Generative Language API is enabled.")],
        calls⟩) := by
  rw [sendMessage_exhausted env key message errs hm hk hfail]
  unfold discoveryRetry
  simp only []
  rw [hdisc]
  simp only []
  rcases avail with _ | _ | ⟨m, ms⟩
  · have : identifiers = [] := by
      simpa [supportedModels, filterSupported, mapIdentifiers] using hids.symm
    subst this
    exact ⟨calls1, by simp [lastErrorText, hintText]⟩
  · have : identifiers = [] := by
      simpa [supportedModels, filterSupported, mapIdentifiers] using hids.symm
    subst this
    exact ⟨calls1, by simp [lastErrorText, hintText]⟩
  · simp only [Option.getD_some] at hids
    simp only [hids]
    cases identifiers with
    | nil => exact ⟨calls1, by simp [lastErrorText, hintText]⟩
    | cons first others =>
      have h2 := hretry first others rfl
      simp only []
      cases hr : retryLoop env key message first apiVersions
          ⟨[.showMessage (some message) "user", .showMessage (some "Thinking...") "bot"],
            calls1⟩ with
      | mk r b =>
        rw [hr] at h2
        simp only [] at h2
        subst h2
        have hui := retryLoop_fail_ui env key message first apiVersions _ r hr
        refine ⟨r.calls, ?_⟩
        simp [hui, lastErrorText, hintText, availableClause]

theorem sendMessage_error_text_witness :
    ∃ calls, sendMessage listedButDownEnv (some "k") "hello" =
      (.ok (), ⟨[.showMessage (some "hello") "user", .showMessage (some "Thinking...") "bot",
          .showError ("Failed to fetch" ++
            (if ["gemini-x"] = [] then ""
              else " Available models: " ++ ", ".intercalate (["gemini-x"].take 3) ++ ".") ++
            " Please check your API key and ensure the Generative Language API is enabled.")],
        calls⟩) :=
  sendMessage_error_text listedButDownEnv "k" "hello" (fun _ => ⟨"Failed to fetch"⟩)
    (some [embeddingModel, chatModel])
    (staticRequests "k" "hello" modelConfigs ++ [Request.listModels "v1beta" "k"])
    ["gemini-x"]
    (by decide) (by decide) (fun _ _ _ => rfl) rfl rfl (fun _ _ _ => rfl)

/-- C2 fails on the code: every static entry fails and discovery returns one
model, which supports `generateContent`; its retry on `v1beta` gets a success
status with `{candidates:[{content:{parts:[{}]}}]}`, which is not a well-formed
success, and its retry on `v1` would get a well-formed success with text `hi`.
`sendMessage` shows `undefined` as the bot response of the `v1beta` retry and
never issues the `v1` retry.  And when a later supporting entry has no `name`,
an exception escapes `sendMessage` before any retry, although the first entry
would answer with a well-formed success. -/
theorem sendMessage_retry_stops_at_textless_part :
    staticLoop textlessRetryEnv "k" "hello" modelConfigs
        ⟨[.showMessage (some "hello") "user", .showMessage (some "Thinking...") "bot"], []⟩
        none =
        .exhausted ⟨[.showMessage (some "hello") "user",
            .showMessage (some "Thinking...") "bot"], staticRequests "k" "hello" modelConfigs⟩
          (some ⟨"Failed to fetch"⟩) ∧
      listAvailableModels textlessRetryEnv (some "k")
          (staticRequests "k" "hello" modelConfigs) =
        (.ok (some [chatModel]),
          staticRequests "k" "hello" modelConfigs ++ [.listModels "v1beta" "k"]) ∧
      supportedModels textlessRetryEnv [chatModel] = .ok ["gemini-x"] ∧
      wellFormedText (textlessRetryEnv.fetch 8
        (generateRequest "k" "hello" "v1beta" "gemini-x")) = none ∧
      wellFormedText (textlessRetryEnv.fetch 9
        (generateRequest "k" "hello" "v1" "gemini-x")) = some "hi" ∧
      sendMessage textlessRetryEnv (some "k") "hello" =
        (.ok (), ⟨[.showMessage (some "hello") "user", .showMessage (some "Thinking...") "bot",
            .showMessage none "bot"],
          staticRequests "k" "hello" modelConfigs ++
            [.listModels "v1beta" "k", generateRequest "k" "hello" "v1beta" "gemini-x"]⟩) ∧
      wellFormedText (namelessLaterEnv.fetch 8
        (generateRequest "k" "hello" "v1beta" "gemini-x")) = some "hi" ∧
      sendMessage namelessLaterEnv (some "k") "hello" =
        (.error ⟨engineText "replace"⟩,
          ⟨[.showMessage (some "hello") "user", .showMessage (some "Thinking...") "bot"],
            staticRequests "k" "hello" modelConfigs ++ [.listModels "v1beta" "k"]⟩) := by
  refine ⟨rfl, rfl, rfl, rfl, rfl, rfl, rfl, rfl⟩

/-- C10, amended: the identifier of a discovered model is its name with the
first occurrence of `models/` removed, which is the leading prefix when the
name starts with `models/`, and is the name unchanged when `models/` does not
occur in it; of a list of models, those kept are exactly the ones whose
`supportedGenerationMethods` list contains `generateContent`, in discovery
order, their identifiers are what `sendMessage` displays and retries, and the
logged names are the first five of these identifiers. -/
theorem supportedModels_identifiers (env : Env) (ms : List ModelInfo) (name : String) :
    ((∃ pre suf, name.toList = pre ++ "models/".toList ++ suf ∧
          (∀ p q, name.toList = p ++ "models/".toList ++ q → pre.length ≤ p.length) ∧
          stripModels name = String.mk (pre ++ suf)) ∨
        ((∀ p q, name.toList ≠ p ++ "models/".toList ++ q) ∧ stripModels name = name)) ∧
      (∀ suf, name.toList = "models/".toList ++ suf → stripModels name = String.mk suf) ∧
      (∃ kept : List ModelInfo, kept.Sublist ms ∧
        (∀ m, m ∈ kept ↔ m ∈ ms ∧
          ∃ methods, m.supportedGenerationMethods = some methods ∧
            "generateContent" ∈ methods) ∧
        supportedModels env (ms.map ModelEntry.model) =
          .ok (kept.map (fun m => stripModels m.name)) ∧
        modelNames env (ms.map ModelEntry.model) =
          .ok ((kept.map (fun m => stripModels m.name)).take 5)) := by
  have hp : "models/".toList ≠ [] := by decide
  have hspec := replaceFirstChars_spec "models/".toList hp name.toList
  refine ⟨?_, ?_, ?_⟩
  · rcases hspec with ⟨pre, suf, hl, hfirst, hr⟩ | ⟨hnone, hr⟩
    · left
      exact ⟨pre, suf, hl, hfirst, by simp only [stripModels, hr]⟩
    · right
      refine ⟨hnone, ?_⟩
      simp only [stripModels, hr]
      rfl
  · intro suf hsuf
    rcases hspec with ⟨pre, suf2, hl, hfirst, hr⟩ | ⟨hnone, hr⟩
    · have h0 := hfirst [] suf (by simpa using hsuf)
      have hpre : pre = [] := List.length_eq_zero.1 (by simpa using h0)
      subst hpre
      have : suf2 = suf := by
        rw [hsuf] at hl
        simpa using hl.symm
      subst this
      simp only [stripModels, hr, List.nil_append]
    · exact absurd (by simpa using hsuf) (hnone [] suf)
  · refine ⟨ms.filter supportsGenerate, List.filter_sublist ms, ?_,
      supportedModels_model env ms, by simp [modelNames, supportedModels_model]⟩
    intro m
    simp only [List.mem_filter, supportsGenerate]
    constructor
    · rintro ⟨hm, hs⟩
      refine ⟨hm, ?_⟩
      cases hmeth : m.supportedGenerationMethods with
      | none => simp [hmeth] at hs
      | some methods =>
        rw [hmeth] at hs
        exact ⟨methods, rfl, by simpa using hs⟩
    · rintro ⟨hm, methods, hmeth, hin⟩
      refine ⟨hm, ?_⟩
      rw [hmeth]
      simpa using hin

theorem supportedModels_identifiers_witness :
    stripModels "models/gemini-pro" = String.mk "gemini-pro".toList :=
  (supportedModels_identifiers offlineEnv [⟨"models/gemini-x", some ["generateContent"]⟩]
    "models/gemini-pro").2.1 "gemini-pro".toList rfl

end Chatbot
